import Mathlib

set_option autoImplicit false

/-!
Verification development for the credential / session-state core of an
account service (fxa-auth-server style `db` module and the oauth route
helper `newTokenNotification`).

The repository ships the remote test suite `test/remote/db_tests.js` and
the route helper `lib/routes/utils/oauth.js`.  The `lib/db.js`
implementation exercised by the tests is not part of the source tree, so
the database operations below are modelled from the specification text,
as marked on each definition.  `newTokenNotification` is embedded
directly from `lib/routes/utils/oauth.js`.
-/

namespace FxaDb

/-- Modelled from the spec: the flat errno-based error taxonomy of
`lib/error.js` (absent from the source tree).  Each variant carries a
stable errno and a human message; `DeviceConflict` carries the
conflicting device id as payload. -/
inductive DbError where
  | notFound
  | tokenNotFound
  | badSessionToken
  | deviceConflict (deviceId : String)
  | invalidUnblockCode
  | invalidSigninCode
deriving DecidableEq, Repr

/-- Modelled from the spec: stable numeric errno per error variant. -/
def DbError.errno : DbError → Nat
  | .notFound => 102
  | .tokenNotFound => 110
  | .badSessionToken => 123
  | .deviceConflict _ => 124
  | .invalidUnblockCode => 127
  | .invalidSigninCode => 146

/-- Modelled from the spec: human message per error variant. -/
def DbError.message : DbError → String
  | .notFound => "Unknown account"
  | .tokenNotFound => "The authentication token could not be found"
  | .badSessionToken => "Unknown device"
  | .deviceConflict _ => "Session already registered by another device"
  | .invalidUnblockCode => "Invalid unblock code"
  | .invalidSigninCode => "Invalid signin code"

/-- Modelled from the spec: HTTP status equivalent per error variant
(`TokenNotFound` maps to 401, the rest of the claims' errors to 400). -/
def DbError.statusCode : DbError → Nat
  | .tokenNotFound => 401
  | _ => 400

/-- Modelled from the spec: the conflicting-device payload (present only
on `DeviceConflict`). -/
def DbError.conflictingDeviceId : DbError → Option String
  | .deviceConflict d => some d
  | _ => none

/-- Common identity fields shared by the four token variants: opaque
token identifier, owning uid, creation timestamp, and lifetime
(`none` means infinite — a verified, device-bound session token). -/
structure TokenHeader where
  tokenId : String
  uid : String
  createdAt : Nat
  lifetime : Option Nat
deriving DecidableEq, Repr

/-- Modelled from the spec: a token is expired when its finite lifetime,
measured from creation, has elapsed at time `now`; infinite-lifetime
tokens never expire. -/
def tokenExpired (now : Nat) (h : TokenHeader) : Bool :=
  match h.lifetime with
  | none => false
  | some l => decide (h.createdAt + l < now)

/-- Modelled from the spec: lookup of a token by bare identifier in a
variant store.  Absent rows and expired rows both surface the single
generic `TokenNotFound` error — never a distinct expired signal. -/
def lookupToken {α : Type} (hd : α → TokenHeader) (now : Nat)
    (store : List α) (tid : String) : Except DbError α :=
  match store.find? (fun t => (hd t).tokenId = tid) with
  | none => .error .tokenNotFound
  | some t => if tokenExpired now (hd t) then .error .tokenNotFound else .ok t

/-- Modelled from the spec: idempotent removal of a token by identifier. -/
def deleteToken {α : Type} (hd : α → TokenHeader) (store : List α)
    (tid : String) : List α :=
  store.filter (fun t => ¬ ((hd t).tokenId = tid))

/-- Last-known location resolved from an IP by the geolocation collaborator. -/
structure Location where
  state : String
  country : String
deriving DecidableEq, Repr

/-- User-agent breakdown produced by the UA-parsing collaborator; unknown
fields are absent. -/
structure UAInfo where
  uaBrowser : Option String
  uaBrowserVersion : Option String
  uaOS : Option String
  uaOSVersion : Option String
  uaDeviceType : Option String
deriving DecidableEq, Repr

/-- Telemetry fields of a session token: last-access time, user-agent
breakdown, last-known location. -/
structure Telemetry where
  lastAccessTime : Nat
  ua : UAInfo
  location : Option Location
deriving DecidableEq, Repr

/-- A durable session-token row: identity header plus telemetry. -/
structure SessionTokenRec where
  hdr : TokenHeader
  telemetry : Telemetry
deriving DecidableEq, Repr

/-- One entry of the per-uid cached array: the token id plus the shadow
telemetry written by `updateSessionToken`. -/
structure CachedSession where
  tokenId : String
  telemetry : Telemetry
deriving DecidableEq, Repr

/-- The metadata cache: per-uid serialized arrays of cached sessions. -/
abbrev Cache := List (String × List CachedSession)

/-- Modelled from the spec: cache `get(key)`. -/
def cacheGet : Cache → String → Option (List CachedSession)
  | [], _ => none
  | e :: rest, uid => if e.1 = uid then some e.2 else cacheGet rest uid

/-- Modelled from the spec: cache `set(key, serialized array)`. -/
def cacheSet : Cache → String → List CachedSession → Cache
  | [], uid, v => [(uid, v)]
  | e :: rest, uid, v =>
    if e.1 = uid then (uid, v) :: rest else e :: cacheSet rest uid v

/-- The state touched by the session-metadata component: durable
session-token rows plus the metadata cache. -/
structure SessionDb where
  durable : List SessionTokenRec
  cache : Cache
deriving DecidableEq, Repr

/-- Modelled from the spec: overlay one cached entry (when present) onto
a durable row — cached telemetry overrides the durable telemetry. -/
def mergeCached (cached : List CachedSession) (r : SessionTokenRec) :
    SessionTokenRec :=
  match cached.find? (fun cs => cs.tokenId = r.hdr.tokenId) with
  | none => r
  | some cs => { r with telemetry := cs.telemetry }

/-- Modelled from the spec: `sessions(uid)` — the merged view.  Durable
rows for the uid, with cached entries overriding telemetry; a cache miss
degrades to plain durable data. -/
def sessions (db : SessionDb) (uid : String) : List SessionTokenRec :=
  match cacheGet db.cache uid with
  | none => db.durable.filter (fun r => r.hdr.uid = uid)
  | some cached =>
    (db.durable.filter (fun r => r.hdr.uid = uid)).map (mergeCached cached)

/-- Modelled from the spec: `sessionToken(tokenId)` — always the durable
row, never the cache; absent or expired rows fail with `TokenNotFound`. -/
def sessionToken (now : Nat) (db : SessionDb) (tid : String) :
    Except DbError SessionTokenRec :=
  lookupToken SessionTokenRec.hdr now db.durable tid

/-- Configuration of the last-access-time-updates feature. -/
structure CacheConfig where
  enabled : Bool
deriving DecidableEq, Repr

/-- Modelled from the spec: the fresh telemetry stamped by
`updateSessionToken` — current time as last-access, re-parsed user agent
when supplied, best-effort location (`none` on geolocation failure). -/
def freshTelemetry (now : Nat) (tok : SessionTokenRec)
    (uaInfo : Option UAInfo) (geo : Option Location) : Telemetry :=
  { lastAccessTime := now, ua := uaInfo.getD tok.telemetry.ua, location := geo }

/-- Modelled from the spec: the entire updated per-uid array written back
to the cache — the updated token carries the fresh telemetry, every
other session of the uid is preserved unchanged. -/
def cachedArray (db : SessionDb) (tok : SessionTokenRec) (tel : Telemetry) :
    List CachedSession :=
  (sessions db tok.hdr.uid).map (fun r =>
    if r.hdr.tokenId = tok.hdr.tokenId then
      { tokenId := r.hdr.tokenId, telemetry := tel }
    else
      { tokenId := r.hdr.tokenId, telemetry := r.telemetry })

/-- Modelled from the spec: `updateSessionToken(token, rawUserAgent?, ip?)`.
No-op returning no result when the feature is disabled, the call is
sampled out, or the email is ineligible; otherwise writes the whole
updated per-uid array to the cache and never touches durable storage. -/
def updateSessionToken (cfg : CacheConfig) (sampled eligible : Bool)
    (now : Nat) (uaInfo : Option UAInfo) (geo : Option Location)
    (db : SessionDb) (tok : SessionTokenRec) :
    SessionDb × Option (List CachedSession) :=
  if cfg.enabled && sampled && eligible then
    let arr := cachedArray db tok (freshTelemetry now tok uaInfo geo)
    ({ db with cache := cacheSet db.cache tok.hdr.uid arr }, some arr)
  else (db, none)

/-- Modelled from the spec: `deleteSessionToken` — removes the durable
row and filters the token id out of the uid's cached array, writing back
the remainder (it never clears the whole per-uid entry). -/
def deleteSessionToken (db : SessionDb) (tok : SessionTokenRec) : SessionDb :=
  let durable := deleteToken SessionTokenRec.hdr db.durable tok.hdr.tokenId
  match cacheGet db.cache tok.hdr.uid with
  | none => { durable := durable, cache := db.cache }
  | some arr =>
    { durable := durable
      cache := cacheSet db.cache tok.hdr.uid
        (arr.filter (fun cs => ¬ (cs.tokenId = tok.hdr.tokenId))) }

/-- A key-fetch token row: identity header plus wrapped key material. -/
structure KeyFetchTokenRec where
  hdr : TokenHeader
  keyA : String
  wrapKb : String
deriving DecidableEq, Repr

/-- An account-reset token row. -/
structure AccountResetTokenRec where
  hdr : TokenHeader
deriving DecidableEq, Repr

/-- A password-forgot token row with its bounded retry counter. -/
structure PasswordForgotTokenRec where
  hdr : TokenHeader
  tries : Nat
deriving DecidableEq, Repr

/-- Modelled from the spec: `keyFetchToken(tokenId)`. -/
def keyFetchToken (now : Nat) (store : List KeyFetchTokenRec) (tid : String) :
    Except DbError KeyFetchTokenRec :=
  lookupToken KeyFetchTokenRec.hdr now store tid

/-- Modelled from the spec: `accountResetToken(tokenId)`. -/
def accountResetToken (now : Nat) (store : List AccountResetTokenRec)
    (tid : String) : Except DbError AccountResetTokenRec :=
  lookupToken AccountResetTokenRec.hdr now store tid

/-- Modelled from the spec: `passwordForgotToken(tokenId)`. -/
def passwordForgotToken (now : Nat) (store : List PasswordForgotTokenRec)
    (tid : String) : Except DbError PasswordForgotTokenRec :=
  lookupToken PasswordForgotTokenRec.hdr now store tid

/-- Modelled from the spec: `deleteKeyFetchToken(token)`. -/
def deleteKeyFetchToken (store : List KeyFetchTokenRec)
    (tok : KeyFetchTokenRec) : List KeyFetchTokenRec :=
  deleteToken KeyFetchTokenRec.hdr store tok.hdr.tokenId

/-- Modelled from the spec: `deleteAccountResetToken(token)`. -/
def deleteAccountResetToken (store : List AccountResetTokenRec)
    (tok : AccountResetTokenRec) : List AccountResetTokenRec :=
  deleteToken AccountResetTokenRec.hdr store tok.hdr.tokenId

/-- Modelled from the spec: `deletePasswordForgotToken(token)`. -/
def deletePasswordForgotToken (store : List PasswordForgotTokenRec)
    (tok : PasswordForgotTokenRec) : List PasswordForgotTokenRec :=
  deleteToken PasswordForgotTokenRec.hdr store tok.hdr.tokenId

/-- The stores touched by the forgot-password conversion. -/
structure ResetDb where
  passwordForgotTokens : List PasswordForgotTokenRec
  accountResetTokens : List AccountResetTokenRec
deriving DecidableEq, Repr

/-- Fixed short lifetime of account-reset tokens (milliseconds). -/
def accountResetLifetime : Nat := 900000

/-- Modelled from the spec: `forgotPasswordVerified(passwordForgotToken)`
— converts a verified forgot-password flow into a fresh account-reset
token for the same uid created at the current time, and deletes the
forgot-password token.  `newTokenId` is the freshly generated random
identifier (id generation is a collaborator). -/
def forgotPasswordVerified (now : Nat) (newTokenId : String) (db : ResetDb)
    (tok : PasswordForgotTokenRec) : ResetDb × AccountResetTokenRec :=
  let newTok : AccountResetTokenRec :=
    ⟨⟨newTokenId, tok.hdr.uid, now, some accountResetLifetime⟩⟩
  let remaining :=
    deleteToken PasswordForgotTokenRec.hdr db.passwordForgotTokens tok.hdr.tokenId
  ({ passwordForgotTokens := remaining,
     accountResetTokens := newTok :: db.accountResetTokens }, newTok)

/-- Device info supplied by the caller; absent fields are not updated,
empty-string values clear push fields. -/
structure DeviceInfo where
  id : String
  name : Option String
  deviceType : Option String
  pushCallback : Option String
  pushPublicKey : Option String
  pushAuthKey : Option String
deriving DecidableEq, Repr

/-- A stored device row, bound 1:1 to a session token. -/
structure DeviceRec where
  id : String
  uid : String
  sessionTokenId : String
  createdAt : Nat
  name : String
  deviceType : Option String
  pushCallback : Option String
  pushPublicKey : Option String
  pushAuthKey : Option String
deriving DecidableEq, Repr

/-- The state touched by the device registry. -/
structure DeviceDb where
  sessionTokens : List SessionTokenRec
  devices : List DeviceRec
deriving DecidableEq, Repr

/-- A field present in the update replaces the stored value; an absent
field leaves it unchanged. -/
def overrideField (new old : Option String) : Option String :=
  match new with
  | some v => some v
  | none => old

/-- Modelled from the spec: partial device update — each field present
in `info` replaces the stored value. -/
def applyDeviceUpdate (sessionTokenId : String) (d : DeviceRec)
    (info : DeviceInfo) : DeviceRec :=
  { d with sessionTokenId := sessionTokenId,
           name := info.name.getD d.name,
           deviceType := overrideField info.deviceType d.deviceType,
           pushCallback := overrideField info.pushCallback d.pushCallback,
           pushPublicKey := overrideField info.pushPublicKey d.pushPublicKey,
           pushAuthKey := overrideField info.pushAuthKey d.pushAuthKey }

/-- Modelled from the spec: `createDevice(uid, sessionTokenId, info)` —
`BadSessionToken` (123) when the session token does not exist for the
uid, `DeviceConflict` (124, carrying the bound device's id) when the
session token is already bound to a device; otherwise inserts the row. -/
def createDevice (now : Nat) (db : DeviceDb) (uid sessionTokenId : String)
    (info : DeviceInfo) : Except DbError (DeviceDb × DeviceRec) :=
  match db.sessionTokens.find?
      (fun s => s.hdr.tokenId = sessionTokenId && s.hdr.uid = uid) with
  | none => .error .badSessionToken
  | some _ =>
    match db.devices.find?
        (fun d => d.sessionTokenId = sessionTokenId && d.uid = uid) with
    | some d => .error (.deviceConflict d.id)
    | none =>
      let dev : DeviceRec :=
        { id := info.id, uid := uid, sessionTokenId := sessionTokenId
          createdAt := now, name := info.name.getD ""
          deviceType := info.deviceType
          pushCallback := info.pushCallback
          pushPublicKey := info.pushPublicKey
          pushAuthKey := info.pushAuthKey }
      .ok ({ db with devices := dev :: db.devices }, dev)

/-- Modelled from the spec: `updateDevice(uid, sessionTokenId, info)` —
same existence/conflict checks as create, then a partial update; a
conflict (session token bound to a different device) is an error, the
existing binding is not overwritten. -/
def updateDevice (db : DeviceDb) (uid sessionTokenId : String)
    (info : DeviceInfo) : Except DbError (DeviceDb × DeviceRec) :=
  match db.sessionTokens.find?
      (fun s => s.hdr.tokenId = sessionTokenId && s.hdr.uid = uid) with
  | none => .error .badSessionToken
  | some _ =>
    match db.devices.find?
        (fun d => d.sessionTokenId = sessionTokenId && d.uid = uid) with
    | some d =>
      if d.id = info.id then
        .ok ({ db with devices := db.devices.map (fun x =>
            if x.id = info.id && x.uid = uid then
              applyDeviceUpdate sessionTokenId x info
            else x) }, applyDeviceUpdate sessionTokenId d info)
      else .error (.deviceConflict d.id)
    | none =>
      match db.devices.find? (fun d => d.id = info.id && d.uid = uid) with
      | none => .error .badSessionToken
      | some d =>
        .ok ({ db with devices := db.devices.map (fun x =>
            if x.id = info.id && x.uid = uid then
              applyDeviceUpdate sessionTokenId x info
            else x) }, applyDeviceUpdate sessionTokenId d info)

/-- An active unblock-code row: one per uid, stored normalized. -/
structure UnblockCodeRec where
  uid : String
  code : String
  createdAt : Nat
deriving DecidableEq, Repr

/-- The unblock-code store. -/
structure UnblockDb where
  codes : List UnblockCodeRec
deriving DecidableEq, Repr

/-- Upper-cases an ASCII letter, leaving other characters unchanged. -/
def upperChar (c : Char) : Char :=
  if 97 ≤ c.toNat ∧ c.toNat ≤ 122 then Char.ofNat (c.toNat - 32) else c

/-- Modelled from the spec: case/format normalization of an unblock code
(upper-cases the supplied code). -/
def normalizeUnblockCode (s : String) : String := String.mk (s.data.map upperChar)

/-- Modelled from the spec: `createUnblockCode(uid)` — stores the freshly
generated code (a collaborator supplies the randomness) normalized,
overwriting any existing code for the uid, and returns it. -/
def createUnblockCode (now : Nat) (db : UnblockDb) (uid code : String) :
    UnblockDb × String :=
  ({ codes := ⟨uid, normalizeUnblockCode code, now⟩ ::
      db.codes.filter (fun r => ¬ (r.uid = uid)) }, code)

/-- Modelled from the spec: `consumeUnblockCode(uid, code)` — normalizes
the supplied code, fails with `InvalidUnblockCode` (127) when no matching
unconsumed row exists for the uid, otherwise deletes the row and succeeds
with no return payload. -/
def consumeUnblockCode (db : UnblockDb) (uid code : String) :
    Except DbError UnblockDb :=
  let n := normalizeUnblockCode code
  match db.codes.find? (fun r => r.uid = uid && r.code = n) with
  | none => .error .invalidUnblockCode
  | some _ => .ok { codes := db.codes.filter (fun r => ¬ (r.uid = uid)) }

/-- Hex digit character for a value below 16 (lower-case alphabet). -/
def hexDigit (n : Nat) : Char :=
  if n < 10 then Char.ofNat (48 + n) else Char.ofNat (87 + n)

/-- Value of a hex digit character, when it is one. -/
def hexDigitVal (c : Char) : Option Nat :=
  if 48 ≤ c.toNat ∧ c.toNat ≤ 57 then some (c.toNat - 48)
  else if 97 ≤ c.toNat ∧ c.toNat ≤ 102 then some (c.toNat - 87)
  else none

/-- Hex encoding of a byte list, two digits per byte. -/
def hexEncodeBytes : List Nat → List Char
  | [] => []
  | b :: bs => hexDigit (b / 16) :: hexDigit (b % 16) :: hexEncodeBytes bs

/-- Hex encoding of a byte list as a string. -/
def hexEncode (bs : List Nat) : String := String.mk (hexEncodeBytes bs)

/-- Hex decoding of a character list into bytes. -/
def hexDecodeChars : List Char → Option (List Nat)
  | [] => some []
  | [_] => none
  | c1 :: c2 :: rest =>
    match hexDigitVal c1, hexDigitVal c2, hexDecodeChars rest with
    | some h, some l, some bs => some ((16 * h + l) :: bs)
    | _, _, _ => none

/-- Hex decoding of a string into bytes. -/
def hexDecode (s : String) : Option (List Nat) := hexDecodeChars s.data

/-- A signin-code row: random byte value, owning uid, optional flow id,
creation time. -/
structure SigninCodeRec where
  code : List Nat
  uid : String
  flowId : Option String
  createdAt : Nat
deriving DecidableEq, Repr

/-- The signin-code store plus the uid-to-email account map needed by
consumption. -/
structure SigninDb where
  codes : List SigninCodeRec
  accounts : List (String × String)
deriving DecidableEq, Repr

/-- Fixed short expiry window of signin codes (milliseconds). -/
def signinCodeLifetime : Nat := 172800000

/-- Modelled from the spec: `createSigninCode(uid, flowId?)` — draws a
fixed-byte random value from the random source (modelled as the stream of
values the source produces), regenerates on collision with a
still-unconsumed code (checked before insert), stores uid, optional
flowId and creation time, and returns the hex-encoded code.  Returns
`none` only if the finite modelled stream is exhausted. -/
def createSigninCode (stream : List (List Nat)) (now : Nat) (db : SigninDb)
    (uid : String) (flowId : Option String) : Option (SigninDb × String) :=
  match stream with
  | [] => none
  | c :: rest =>
    if db.codes.any (fun r => r.code = c) then
      createSigninCode rest now db uid flowId
    else
      some ({ db with codes := ⟨c, uid, flowId, now⟩ :: db.codes },
        hexEncode c)

/-- The payload returned by a successful signin-code consumption. -/
structure SigninCodeConsumed where
  email : String
  flowId : Option String
deriving DecidableEq, Repr

/-- Modelled from the spec: `consumeSigninCode(code)` — fails with
`InvalidSigninCode` (146, HTTP 400) when the code does not exist or has
expired; otherwise deletes the row and returns the owning account's
email and the flowId when present. -/
def consumeSigninCode (now : Nat) (db : SigninDb) (code : String) :
    Except DbError (SigninDb × SigninCodeConsumed) :=
  match db.codes.find? (fun r => hexEncode r.code = code) with
  | none => .error .invalidSigninCode
  | some r =>
    if r.createdAt + signinCodeLifetime < now then .error .invalidSigninCode
    else
      match db.accounts.find? (fun a => a.1 = r.uid) with
      | none => .error .invalidSigninCode
      | some a =>
        .ok ({ db with
                codes := db.codes.filter (fun x => ¬ (hexEncode x.code = code)) },
          { email := a.2, flowId := r.flowId })

/-! Embedding of `lib/routes/utils/oauth.js`. -/

/-- An OAuth grant as passed to `newTokenNotification`: scope string plus
access and refresh tokens. -/
structure Grant where
  scope : String
  access_token : String
  refresh_token : String
deriving DecidableEq, Repr

/-- Result of `oauthdb.checkAccessToken`. -/
structure TokenVerify where
  user : String
  client_id : String
deriving DecidableEq, Repr

/-- Result of `oauthdb.getClientInfo`. -/
structure ClientInfo where
  id : String
  name : String
deriving DecidableEq, Repr

/-- The request credentials object mutated by `newTokenNotification`. -/
structure Credentials where
  uid : Option String
  tokenVerified : Option Bool
  refreshTokenId : Option String
  client : Option ClientInfo
deriving DecidableEq, Repr

/-- The fresh `{}` credentials object created when none was passed. -/
def emptyCredentials : Credentials := ⟨none, none, none, none⟩

/-- Geo data attached to the request by upstream middleware. -/
structure GeoData where
  location : Option Location
  timeZone : Option String
deriving DecidableEq, Repr

/-- The request fields read by `newTokenNotification`. -/
structure RequestData where
  acceptLanguage : String
  clientAddress : String
  geo : GeoData
  payloadService : Option String
  queryService : Option String
deriving DecidableEq, Repr

/-- The oauthdb collaborator results, modelled as pure oracles. -/
structure OauthCollabs where
  checkAccessToken : String → TokenVerify
  getClientInfo : String → ClientInfo

/-- One observable collaborator invocation made by
`newTokenNotification`: access-token check, client-info lookup, device
upsert, account read, or notification email. -/
inductive CollabCall where
  | checkAccessToken (token : String)
  | getClientInfo (clientId : String)
  | devicesUpsert (uid : String)
  | accountRead (uid : String)
  | sendNewDeviceLoginNotification (uid : String) (service : String)
deriving DecidableEq, Repr

/-- The space character, used to split scope strings. -/
def spaceChar : Char := Char.ofNat 32

/-- The fragment separator of URL scope values. -/
def hashChar : Char := Char.ofNat 35

/-- The path separator of scope values. -/
def slashChar : Char := Char.ofNat 47

/-- Splits a scope string on spaces, dropping empty fragments
(`ScopeSet.fromString` of the fxa-shared collaborator). -/
def splitScopesAux : List Char → List Char → List String
  | [], acc => if acc.isEmpty then [] else [String.mk acc.reverse]
  | c :: cs, acc =>
    if c = spaceChar then
      if acc.isEmpty then splitScopesAux cs []
      else String.mk acc.reverse :: splitScopesAux cs []
    else splitScopesAux cs (c :: acc)

/-- Scope-set parsing: the list of scope values of a scope string. -/
def scopeSetFromString (s : String) : List String := splitScopesAux s.data []

/-- Scope implication of the fxa-shared collaborator: a scope value
implies itself and any fragment or path extension of itself. -/
def scopeImplies (a b : String) : Bool :=
  a = b || (a.data ++ [hashChar]).isPrefixOf b.data
    || (a.data ++ [slashChar]).isPrefixOf b.data

/-- `ScopeSet.intersects`: some value of one set implies or is implied by
some value of the other. -/
def scopeIntersects (a b : List String) : Bool :=
  a.any (fun x => b.any (fun y => scopeImplies x y || scopeImplies y x))

/-- The notification scopes of `lib/routes/utils/oauth.js`: only the
oldsync scope triggers notifications. -/
def NOTIFICATION_SCOPES : List String :=
  ["https://identity.mozilla.com/apps/oldsync"]

/-- Embedded from `lib/routes/utils/oauth.js`: `newTokenNotification`.
Returns the credentials object as left by the call plus the trace of
collaborator invocations.  When the grant's scope set does not intersect
`NOTIFICATION_SCOPES` it returns immediately: no collaborator runs and
the credentials are untouched.  Otherwise it checks the access token,
fills the credentials fields, looks up client info, upserts the device,
reads the account and sends the new-device-login email. -/
def newTokenNotification (oauthdb : OauthCollabs) (request : RequestData)
    (credentials : Option Credentials) (grant : Grant) :
    Option Credentials × List CollabCall :=
  let scopeSet := scopeSetFromString grant.scope
  if ¬ (scopeIntersects scopeSet NOTIFICATION_SCOPES = true) then
    (credentials, [])
  else
    let tokenVerify := oauthdb.checkAccessToken grant.access_token
    let creds0 := credentials.getD emptyCredentials
    let uid := tokenVerify.user
    let client := oauthdb.getClientInfo tokenVerify.client_id
    let creds : Credentials :=
      { creds0 with uid := some uid, tokenVerified := some true,
                    refreshTokenId := some grant.refresh_token,
                    client := some client }
    let service :=
      (overrideField request.payloadService request.queryService).getD
        tokenVerify.client_id
    (some creds,
      [CollabCall.checkAccessToken grant.access_token,
       CollabCall.getClientInfo tokenVerify.client_id,
       CollabCall.devicesUpsert uid,
       CollabCall.accountRead uid,
       CollabCall.sendNewDeviceLoginNotification uid service])

/-! Sample data used by the concrete witnesses. -/

/-- Sample desktop user-agent breakdown. -/
def uaDesktopW : UAInfo :=
  ⟨some "Firefox", some "41", some "Mac OS X", some "10.10", none⟩

/-- Sample mobile user-agent breakdown. -/
def uaMobileW : UAInfo :=
  ⟨some "Firefox Mobile", some "41", some "Android", some "4.4", some "mobile"⟩

/-- Sample telemetry. -/
def telW : Telemetry := ⟨5, uaDesktopW, none⟩

/-- Sample location. -/
def locW : Location := ⟨"Mordor", "ME"⟩

/-- Sample session token. -/
def sessW : SessionTokenRec := ⟨⟨"t1", "u1", 5, some 100⟩, telW⟩

/-- Sample sibling session token of the same uid. -/
def sessW2 : SessionTokenRec := ⟨⟨"t2", "u1", 5, some 100⟩, telW⟩

/-- Sample session store with an empty cache. -/
def sessDbW : SessionDb := ⟨[sessW], []⟩

/-- Sample cache holding two sessions for uid u1. -/
def cacheW : Cache := [("u1", [⟨"t2", telW⟩, ⟨"t1", telW⟩])]

/-- Sample session store with a two-entry cached array. -/
def sessDbW4 : SessionDb := ⟨[sessW, sessW2], cacheW⟩

/-- Sample session token that is expired at time 100. -/
def sessExpW : SessionTokenRec := ⟨⟨"t1", "u1", 0, some 10⟩, telW⟩

/-- Sample key-fetch token that is expired at time 100. -/
def kfW : KeyFetchTokenRec := ⟨⟨"k1", "u1", 0, some 10⟩, "ka", "wk"⟩

/-- Sample account-reset token that is expired at time 100. -/
def arW : AccountResetTokenRec := ⟨⟨"r1", "u1", 0, some 10⟩⟩

/-- Sample password-forgot token that is expired at time 100. -/
def pfW : PasswordForgotTokenRec := ⟨⟨"p1", "u1", 0, some 10⟩, 3⟩

/-- Sample device-bound session token. -/
def devSessW : SessionTokenRec := ⟨⟨"s1", "u1", 5, none⟩, telW⟩

/-- Sample device bound to session s1. -/
def devW : DeviceRec :=
  ⟨"d1", "u1", "s1", 6, "", some "mobile", none, none, none⟩

/-- Sample device registry state. -/
def devDbW : DeviceDb := ⟨[devSessW], [devW]⟩

/-- Sample device info with a different device id. -/
def devInfoW : DeviceInfo := ⟨"d2", some "wibble", none, none, none, none⟩

/-- Sample signin-code store: one unconsumed code and one account. -/
def signinDbW : SigninDb := ⟨[⟨[0, 1], "u1", none, 0⟩], [("u1", "foo@example.com")]⟩

/-- Sample random stream whose first value collides with the stored code. -/
def streamW : List (List Nat) := [[0, 1], [0, 2]]

/-- Sample unblock-code store. -/
def unblockDbW : UnblockDb := ⟨[⟨"u1", "ABCDEFGH", 0⟩]⟩

/-- Sample reset-flow store holding one password-forgot token. -/
def resetDbW : ResetDb := ⟨[⟨⟨"p1", "u1", 0, some 10⟩, 3⟩], []⟩

/-- Sample oauth collaborators. -/
def collabsW : OauthCollabs :=
  ⟨fun _ => ⟨"u1", "c1"⟩, fun _ => ⟨"c1", "client"⟩⟩

/-- Sample request data. -/
def requestW : RequestData := ⟨"en", "1.1.1.1", ⟨none, none⟩, none, none⟩

/-- Sample grant whose scope does not mention oldsync. -/
def grantW : Grant := ⟨"profile openid", "at", "rt"⟩

/-- Sample credentials object. -/
def credsW : Credentials := ⟨some "u0", none, none, none⟩

/-! Helper lemmas. -/

theorem lookupToken_deleteToken {α : Type} (hd : α → TokenHeader) (now : Nat)
    (store : List α) (tid : String) :
    lookupToken hd now (deleteToken hd store tid) tid = .error .tokenNotFound := by
  unfold lookupToken deleteToken
  have hfind : (store.filter (fun t => ¬ ((hd t).tokenId = tid))).find?
      (fun t => (hd t).tokenId = tid) = none := by
    rw [List.find?_eq_none]
    intro x hx
    have hx' := (List.mem_filter.mp hx).2
    simpa using hx'
  rw [hfind]

theorem lookupToken_absent {α : Type} (hd : α → TokenHeader) (now : Nat)
    (store : List α) (tid : String)
    (h : ∀ t ∈ store, (hd t).tokenId ≠ tid) :
    lookupToken hd now store tid = .error .tokenNotFound := by
  unfold lookupToken
  have hfind : store.find? (fun t => (hd t).tokenId = tid) = none := by
    rw [List.find?_eq_none]
    intro x hx
    simpa using h x hx
  rw [hfind]

theorem lookupToken_expired {α : Type} (hd : α → TokenHeader) (now : Nat)
    (store : List α) (tid : String) (t : α)
    (hfind : store.find? (fun t => (hd t).tokenId = tid) = some t)
    (hexp : tokenExpired now (hd t) = true) :
    lookupToken hd now store tid = .error .tokenNotFound := by
  unfold lookupToken
  rw [hfind]
  simp [hexp]

theorem cacheGet_cacheSet (c : Cache) (uid : String) (v : List CachedSession) :
    cacheGet (cacheSet c uid v) uid = some v := by
  induction c with
  | nil => simp [cacheGet, cacheSet]
  | cons e rest ih =>
    by_cases h : e.1 = uid
    · simp [cacheGet, cacheSet, h]
    · simp [cacheGet, cacheSet, h, ih]

theorem find?_filter_of_find? {α : Type} (p q : α → Bool) (l : List α) (a : α)
    (h : l.find? p = some a) (hq : q a = true) :
    (l.filter q).find? p = some a := by
  induction l with
  | nil => simp at h
  | cons x xs ih =>
    cases hpx : p x with
    | true =>
      have hax : x = a := by
        rw [List.find?_cons_of_pos _ hpx] at h
        exact Option.some.inj h
      subst hax
      rw [List.filter_cons_of_pos hq, List.find?_cons_of_pos _ hpx]
    | false =>
      rw [List.find?_cons_of_neg _ (by simp [hpx])] at h
      by_cases hqx : q x = true
      · rw [List.filter_cons_of_pos hqx, List.find?_cons_of_neg _ (by simp [hpx])]
        exact ih h
      · rw [List.filter_cons_of_neg (by simpa using hqx)]
        exact ih h

theorem find?_map_of_key {α β : Type} (ka : α → String) (kb : β → String)
    (f : α → β) (hf : ∀ a, kb (f a) = ka a) (tid : String) (l : List α)
    (a : α) (h : l.find? (fun x => ka x = tid) = some a) :
    (l.map f).find? (fun y => kb y = tid) = some (f a) := by
  induction l with
  | nil => simp at h
  | cons x xs ih =>
    by_cases hx : ka x = tid
    · have hax : x = a := by
        rw [List.find?_cons_of_pos _ (by simp [hx])] at h
        exact Option.some.inj h
      subst hax
      simp only [List.map_cons]
      rw [List.find?_cons_of_pos _ (by simp [hf, hx])]
    · rw [List.find?_cons_of_neg _ (by simp [hx])] at h
      simp only [List.map_cons]
      rw [List.find?_cons_of_neg _ (by simp [hf, hx])]
      exact ih h

theorem mergeCached_hdr (cached : List CachedSession) (r : SessionTokenRec) :
    (mergeCached cached r).hdr = r.hdr := by
  unfold mergeCached
  cases cached.find? (fun cs => cs.tokenId = r.hdr.tokenId) <;> rfl

theorem length_filter_not_add_countP {α : Type} (q : α → Prop) [DecidablePred q]
    (l : List α) :
    (l.filter (fun a => ¬ (q a))).length + l.countP (fun a => q a) = l.length := by
  induction l with
  | nil => simp
  | cons x xs ih =>
    by_cases hq : q x <;>
      simp [List.filter_cons, List.countP_cons, hq, decide_not] at ih ⊢ <;>
      omega

theorem sessions_find?_of_durable (db : SessionDb) (tok : SessionTokenRec)
    (h1 : db.durable.find? (fun r => r.hdr.tokenId = tok.hdr.tokenId) = some tok) :
    ∃ m, (sessions db tok.hdr.uid).find?
        (fun r => r.hdr.tokenId = tok.hdr.tokenId) = some m ∧ m.hdr = tok.hdr := by
  have hrows : (db.durable.filter (fun r => r.hdr.uid = tok.hdr.uid)).find?
      (fun r => r.hdr.tokenId = tok.hdr.tokenId) = some tok :=
    find?_filter_of_find? _ _ _ _ h1 (by simp)
  cases hget : cacheGet db.cache tok.hdr.uid with
  | none =>
    refine ⟨tok, ?_, rfl⟩
    simp only [sessions, hget]
    exact hrows
  | some cached =>
    refine ⟨mergeCached cached tok, ?_, mergeCached_hdr cached tok⟩
    simp only [sessions, hget]
    exact find?_map_of_key (fun r => r.hdr.tokenId) (fun r => r.hdr.tokenId)
      (mergeCached cached)
      (fun a => congrArg TokenHeader.tokenId (mergeCached_hdr cached a))
      _ _ _ hrows

/-- C9: with the last-access-time-updates feature flag disabled,
`updateSessionToken` returns no result and performs no cache write — the
whole database state, cache included, is returned unchanged. -/
theorem claim_update_session_disabled_noop (cfg : CacheConfig)
    (sampled eligible : Bool) (now : Nat) (uaInfo : Option UAInfo)
    (geo : Option Location) (db : SessionDb) (tok : SessionTokenRec)
    (h : cfg.enabled = false) :
    updateSessionToken cfg sampled eligible now uaInfo geo db tok = (db, none) := by
  unfold updateSessionToken
  rw [h]
  simp

theorem claim_update_session_disabled_noop_witness :
    (CacheConfig.mk false).enabled = false ∧
      updateSessionToken ⟨false⟩ true true 6 (some uaMobileW) (some locW)
        sessDbW sessW = (sessDbW, none) :=
  ⟨rfl, claim_update_session_disabled_noop ⟨false⟩ true true 6 (some uaMobileW)
    (some locW) sessDbW sessW rfl⟩

/-- C4: when the uid's cached array holds `N` entries exactly one of
which carries the deleted session's tokenId, `deleteSessionToken` writes
back the filtered array: still present (never cleared), of length
`N - 1`, with every entry for a different tokenId preserved unmodified. -/
theorem claim_delete_session_cache_filter (db : SessionDb)
    (tok : SessionTokenRec) (arr : List CachedSession)
    (hget : cacheGet db.cache tok.hdr.uid = some arr)
    (hcount : arr.countP (fun cs => cs.tokenId = tok.hdr.tokenId) = 1) :
    cacheGet (deleteSessionToken db tok).cache tok.hdr.uid
        = some (arr.filter (fun cs => ¬ (cs.tokenId = tok.hdr.tokenId)))
    ∧ (arr.filter (fun cs => ¬ (cs.tokenId = tok.hdr.tokenId))).length
        = arr.length - 1
    ∧ ∀ cs ∈ arr, cs.tokenId ≠ tok.hdr.tokenId →
        cs ∈ arr.filter (fun cs => ¬ (cs.tokenId = tok.hdr.tokenId)) := by
  refine ⟨?_, ?_, ?_⟩
  · simp only [deleteSessionToken, hget]
    exact cacheGet_cacheSet _ _ _
  · have h := length_filter_not_add_countP
      (fun cs => cs.tokenId = tok.hdr.tokenId) arr
    omega
  · intro cs hmem hne
    exact List.mem_filter.mpr ⟨hmem, by simpa using hne⟩

theorem claim_delete_session_cache_filter_witness :
    cacheGet sessDbW4.cache sessW.hdr.uid = some [⟨"t2", telW⟩, ⟨"t1", telW⟩]
    ∧ ([⟨"t2", telW⟩, ⟨"t1", telW⟩] : List CachedSession).countP
        (fun cs => cs.tokenId = sessW.hdr.tokenId) = 1
    ∧ (cacheGet (deleteSessionToken sessDbW4 sessW).cache sessW.hdr.uid
        = some (([⟨"t2", telW⟩, ⟨"t1", telW⟩] : List CachedSession).filter
            (fun cs => ¬ (cs.tokenId = sessW.hdr.tokenId)))
      ∧ (([⟨"t2", telW⟩, ⟨"t1", telW⟩] : List CachedSession).filter
            (fun cs => ¬ (cs.tokenId = sessW.hdr.tokenId))).length
          = ([⟨"t2", telW⟩, ⟨"t1", telW⟩] : List CachedSession).length - 1
      ∧ ∀ cs ∈ ([⟨"t2", telW⟩, ⟨"t1", telW⟩] : List CachedSession),
          cs.tokenId ≠ sessW.hdr.tokenId →
            cs ∈ ([⟨"t2", telW⟩, ⟨"t1", telW⟩] : List CachedSession).filter
              (fun cs => ¬ (cs.tokenId = sessW.hdr.tokenId))) :=
  ⟨by decide, by decide,
    claim_delete_session_cache_filter sessDbW4 sessW [⟨"t2", telW⟩, ⟨"t1", telW⟩]
      (by decide) (by decide)⟩

theorem deleteSessionToken_durable (db : SessionDb) (tok : SessionTokenRec) :
    (deleteSessionToken db tok).durable
      = deleteToken SessionTokenRec.hdr db.durable tok.hdr.tokenId := by
  unfold deleteSessionToken
  cases cacheGet db.cache tok.hdr.uid <;> rfl

/-- C2: for each of the four token variants, looking a token up after it
has been deleted, when it never existed, or when it has expired, fails
with the single `TokenNotFound` error — errno 110, message "The
authentication token could not be found" — with no distinct expired
signal for any variant. -/
theorem claim_token_lookup_not_found_uniform
    (now now3 : Nat) (tid2 : String)
    (db : SessionDb) (sTok : SessionTokenRec)
    (ks : List KeyFetchTokenRec) (kTok : KeyFetchTokenRec)
    (rs : List AccountResetTokenRec) (rTok : AccountResetTokenRec)
    (ps : List PasswordForgotTokenRec) (pTok : PasswordForgotTokenRec)
    (hsAbs : ∀ x ∈ db.durable, x.hdr.tokenId ≠ tid2)
    (hkAbs : ∀ x ∈ ks, x.hdr.tokenId ≠ tid2)
    (hrAbs : ∀ x ∈ rs, x.hdr.tokenId ≠ tid2)
    (hpAbs : ∀ x ∈ ps, x.hdr.tokenId ≠ tid2)
    (hsFind : db.durable.find? (fun t => t.hdr.tokenId = sTok.hdr.tokenId) = some sTok)
    (hkFind : ks.find? (fun t => t.hdr.tokenId = kTok.hdr.tokenId) = some kTok)
    (hrFind : rs.find? (fun t => t.hdr.tokenId = rTok.hdr.tokenId) = some rTok)
    (hpFind : ps.find? (fun t => t.hdr.tokenId = pTok.hdr.tokenId) = some pTok)
    (hsExp : tokenExpired now3 sTok.hdr = true)
    (hkExp : tokenExpired now3 kTok.hdr = true)
    (hrExp : tokenExpired now3 rTok.hdr = true)
    (hpExp : tokenExpired now3 pTok.hdr = true) :
    (sessionToken now (deleteSessionToken db sTok) sTok.hdr.tokenId
        = .error .tokenNotFound)
    ∧ (keyFetchToken now (deleteKeyFetchToken ks kTok) kTok.hdr.tokenId
        = .error .tokenNotFound)
    ∧ (accountResetToken now (deleteAccountResetToken rs rTok) rTok.hdr.tokenId
        = .error .tokenNotFound)
    ∧ (passwordForgotToken now (deletePasswordForgotToken ps pTok) pTok.hdr.tokenId
        = .error .tokenNotFound)
    ∧ (sessionToken now db tid2 = .error .tokenNotFound)
    ∧ (keyFetchToken now ks tid2 = .error .tokenNotFound)
    ∧ (accountResetToken now rs tid2 = .error .tokenNotFound)
    ∧ (passwordForgotToken now ps tid2 = .error .tokenNotFound)
    ∧ (sessionToken now3 db sTok.hdr.tokenId = .error .tokenNotFound)
    ∧ (keyFetchToken now3 ks kTok.hdr.tokenId = .error .tokenNotFound)
    ∧ (accountResetToken now3 rs rTok.hdr.tokenId = .error .tokenNotFound)
    ∧ (passwordForgotToken now3 ps pTok.hdr.tokenId = .error .tokenNotFound)
    ∧ DbError.errno .tokenNotFound = 110
    ∧ DbError.message .tokenNotFound
        = "The authentication token could not be found" := by
  refine ⟨?_, ?_, ?_, ?_, ?_, ?_, ?_, ?_, ?_, ?_, ?_, ?_, rfl, rfl⟩
  · show lookupToken SessionTokenRec.hdr now (deleteSessionToken db sTok).durable
        sTok.hdr.tokenId = .error .tokenNotFound
    rw [deleteSessionToken_durable]
    exact lookupToken_deleteToken _ _ _ _
  · exact lookupToken_deleteToken _ _ _ _
  · exact lookupToken_deleteToken _ _ _ _
  · exact lookupToken_deleteToken _ _ _ _
  · exact lookupToken_absent _ _ _ _ hsAbs
  · exact lookupToken_absent _ _ _ _ hkAbs
  · exact lookupToken_absent _ _ _ _ hrAbs
  · exact lookupToken_absent _ _ _ _ hpAbs
  · exact lookupToken_expired _ _ _ _ _ hsFind hsExp
  · exact lookupToken_expired _ _ _ _ _ hkFind hkExp
  · exact lookupToken_expired _ _ _ _ _ hrFind hrExp
  · exact lookupToken_expired _ _ _ _ _ hpFind hpExp

theorem claim_token_lookup_not_found_uniform_witness :
    (sessionToken 0 (deleteSessionToken ⟨[sessExpW], []⟩ sessExpW)
        sessExpW.hdr.tokenId = .error .tokenNotFound)
    ∧ (keyFetchToken 0 (deleteKeyFetchToken [kfW] kfW) kfW.hdr.tokenId
        = .error .tokenNotFound)
    ∧ (accountResetToken 0 (deleteAccountResetToken [arW] arW) arW.hdr.tokenId
        = .error .tokenNotFound)
    ∧ (passwordForgotToken 0 (deletePasswordForgotToken [pfW] pfW)
        pfW.hdr.tokenId = .error .tokenNotFound)
    ∧ (sessionToken 0 ⟨[sessExpW], []⟩ "zz" = .error .tokenNotFound)
    ∧ (keyFetchToken 0 [kfW] "zz" = .error .tokenNotFound)
    ∧ (accountResetToken 0 [arW] "zz" = .error .tokenNotFound)
    ∧ (passwordForgotToken 0 [pfW] "zz" = .error .tokenNotFound)
    ∧ (sessionToken 100 ⟨[sessExpW], []⟩ sessExpW.hdr.tokenId
        = .error .tokenNotFound)
    ∧ (keyFetchToken 100 [kfW] kfW.hdr.tokenId = .error .tokenNotFound)
    ∧ (accountResetToken 100 [arW] arW.hdr.tokenId = .error .tokenNotFound)
    ∧ (passwordForgotToken 100 [pfW] pfW.hdr.tokenId = .error .tokenNotFound)
    ∧ DbError.errno .tokenNotFound = 110
    ∧ DbError.message .tokenNotFound
        = "The authentication token could not be found" :=
  claim_token_lookup_not_found_uniform 0 100 "zz" ⟨[sessExpW], []⟩ sessExpW
    [kfW] kfW [arW] arW [pfW] pfW
    (by decide) (by decide) (by decide) (by decide)
    (by decide) (by decide) (by decide) (by decide)
    (by decide) (by decide) (by decide) (by decide)

theorem sessions_of_cacheGet (db : SessionDb) (uid : String)
    (cached : List CachedSession) (hget : cacheGet db.cache uid = some cached) :
    sessions db uid
      = (db.durable.filter (fun r => r.hdr.uid = uid)).map (mergeCached cached) := by
  simp only [sessions, hget]

/-- C1: after `updateSessionToken` has written fresh telemetry for a
session token, `sessions(uid)` returns that token with the new
telemetry, while `sessionToken(tokenId)` called at the same point still
returns the durable row with the original telemetry unchanged — the
single-token lookup never consults the cache. -/
theorem claim_sessions_cache_vs_durable_asymmetry
    (db : SessionDb) (tok : SessionTokenRec) (now now2 : Nat)
    (uaInfo : Option UAInfo) (geo : Option Location)
    (h1 : db.durable.find? (fun r => r.hdr.tokenId = tok.hdr.tokenId) = some tok)
    (hexp : tokenExpired now2 tok.hdr = false) :
    ((sessions (updateSessionToken ⟨true⟩ true true now uaInfo geo db tok).1
        tok.hdr.uid).find? (fun r => r.hdr.tokenId = tok.hdr.tokenId)
      = some { tok with telemetry := freshTelemetry now tok uaInfo geo })
    ∧ (sessionToken now2 (updateSessionToken ⟨true⟩ true true now uaInfo geo db tok).1
        tok.hdr.tokenId = sessionToken now2 db tok.hdr.tokenId)
    ∧ (sessionToken now2 (updateSessionToken ⟨true⟩ true true now uaInfo geo db tok).1
        tok.hdr.tokenId = .ok tok)
    ∧ (∀ dur ca cb n tid,
        sessionToken n ⟨dur, ca⟩ tid = sessionToken n ⟨dur, cb⟩ tid) := by
  have hupd : (updateSessionToken ⟨true⟩ true true now uaInfo geo db tok).1
      = { db with cache := (cacheSet db.cache tok.hdr.uid
            (cachedArray db tok (freshTelemetry now tok uaInfo geo))) } := by
    simp [updateSessionToken]
  have hrows : (db.durable.filter (fun r => r.hdr.uid = tok.hdr.uid)).find?
      (fun r => r.hdr.tokenId = tok.hdr.tokenId) = some tok :=
    find?_filter_of_find? _ _ _ _ h1 (by simp)
  refine ⟨?_, ?_, ?_, ?_⟩
  · rw [hupd]
    have hget : cacheGet (cacheSet db.cache tok.hdr.uid
          (cachedArray db tok (freshTelemetry now tok uaInfo geo))) tok.hdr.uid
        = some (cachedArray db tok (freshTelemetry now tok uaInfo geo)) :=
      cacheGet_cacheSet _ _ _
    rw [sessions_of_cacheGet _ _ _ hget]
    have hmap := find?_map_of_key (fun r => r.hdr.tokenId) (fun r => r.hdr.tokenId)
      (mergeCached (cachedArray db tok (freshTelemetry now tok uaInfo geo)))
      (fun a => congrArg TokenHeader.tokenId (mergeCached_hdr _ a))
      tok.hdr.tokenId _ tok hrows
    rw [hmap]
    have harr : (cachedArray db tok (freshTelemetry now tok uaInfo geo)).find?
        (fun cs => cs.tokenId = tok.hdr.tokenId)
        = some ⟨tok.hdr.tokenId, freshTelemetry now tok uaInfo geo⟩ := by
      obtain ⟨m, hm, hmhdr⟩ := sessions_find?_of_durable db tok h1
      have hfm := find?_map_of_key (fun r => r.hdr.tokenId) (fun cs => cs.tokenId)
        (fun r => if r.hdr.tokenId = tok.hdr.tokenId then
            (⟨r.hdr.tokenId, freshTelemetry now tok uaInfo geo⟩ : CachedSession)
          else ⟨r.hdr.tokenId, r.telemetry⟩)
        (fun a => by
          by_cases hcase : a.hdr.tokenId = tok.hdr.tokenId <;> simp [hcase])
        tok.hdr.tokenId _ m hm
      unfold cachedArray
      rw [hfm]
      simp [hmhdr]
    have hmerge : mergeCached (cachedArray db tok (freshTelemetry now tok uaInfo geo)) tok
        = { tok with telemetry := freshTelemetry now tok uaInfo geo } := by
      unfold mergeCached
      rw [harr]
    rw [hmerge]
  · rw [hupd]
    rfl
  · rw [hupd]
    show lookupToken SessionTokenRec.hdr now2 db.durable tok.hdr.tokenId = .ok tok
    unfold lookupToken
    rw [h1]
    simp [hexp]
  · intro dur ca cb n tid
    rfl

theorem claim_sessions_cache_vs_durable_asymmetry_witness :
    ((sessions (updateSessionToken ⟨true⟩ true true 6 (some uaMobileW)
        (some locW) sessDbW sessW).1 sessW.hdr.uid).find?
        (fun r => r.hdr.tokenId = sessW.hdr.tokenId)
      = some { sessW with telemetry := freshTelemetry 6 sessW (some uaMobileW) (some locW) })
    ∧ (sessionToken 7 (updateSessionToken ⟨true⟩ true true 6 (some uaMobileW)
        (some locW) sessDbW sessW).1 sessW.hdr.tokenId
      = sessionToken 7 sessDbW sessW.hdr.tokenId)
    ∧ (sessionToken 7 (updateSessionToken ⟨true⟩ true true 6 (some uaMobileW)
        (some locW) sessDbW sessW).1 sessW.hdr.tokenId = .ok sessW)
    ∧ (∀ dur ca cb n tid,
        sessionToken n ⟨dur, ca⟩ tid = sessionToken n ⟨dur, cb⟩ tid) :=
  claim_sessions_cache_vs_durable_asymmetry sessDbW sessW 6 7 (some uaMobileW)
    (some locW) (by decide) (by decide)

/-- C3: when a session token is already bound to a device, both
`createDevice` and `updateDevice` invoked with that session token id and
a different device fail with `DeviceConflict` — errno 124, payload
carrying the id of the device already bound — and, returning an error,
leave the existing binding in place. -/
theorem claim_device_conflict (now : Nat) (db : DeviceDb) (uid : String)
    (s : SessionTokenRec) (d : DeviceRec) (info : DeviceInfo)
    (hs : db.sessionTokens.find?
        (fun x => x.hdr.tokenId = d.sessionTokenId && x.hdr.uid = uid) = some s)
    (hd : db.devices.find?
        (fun x => x.sessionTokenId = d.sessionTokenId && x.uid = uid) = some d)
    (hne : info.id ≠ d.id) :
    (createDevice now db uid d.sessionTokenId info
        = .error (.deviceConflict d.id))
    ∧ (updateDevice db uid d.sessionTokenId info
        = .error (.deviceConflict d.id))
    ∧ DbError.errno (.deviceConflict d.id) = 124
    ∧ DbError.conflictingDeviceId (.deviceConflict d.id) = some d.id := by
  refine ⟨?_, ?_, rfl, rfl⟩
  · simp only [createDevice, hs, hd]
  · simp only [updateDevice, hs, hd]
    rw [if_neg (Ne.symm hne)]

theorem claim_device_conflict_witness :
    (devDbW.sessionTokens.find?
        (fun x => x.hdr.tokenId = devW.sessionTokenId && x.hdr.uid = "u1")
      = some devSessW)
    ∧ (devDbW.devices.find?
        (fun x => x.sessionTokenId = devW.sessionTokenId && x.uid = "u1")
      = some devW)
    ∧ devInfoW.id ≠ devW.id
    ∧ ((createDevice 7 devDbW "u1" devW.sessionTokenId devInfoW
          = .error (.deviceConflict devW.id))
      ∧ (updateDevice devDbW "u1" devW.sessionTokenId devInfoW
          = .error (.deviceConflict devW.id))
      ∧ DbError.errno (.deviceConflict devW.id) = 124
      ∧ DbError.conflictingDeviceId (.deviceConflict devW.id) = some devW.id) :=
  ⟨by decide, by decide, by decide,
    claim_device_conflict 7 devDbW "u1" devSessW devW devInfoW
      (by decide) (by decide) (by decide)⟩

/-- C7: for a uid with an active unblock code, consuming a non-matching
code fails with `InvalidUnblockCode` (errno 127, message "Invalid
unblock code"); consuming the matching code deletes the row and succeeds
with no payload; consuming the same code again fails with the same
errno 127. -/
theorem claim_consume_unblock_code (db : UnblockDb)
    (uid goodCode badCode : String) (r : UnblockCodeRec)
    (hfind : db.codes.find?
        (fun x => x.uid = uid && x.code = normalizeUnblockCode goodCode) = some r)
    (hbad : ∀ x ∈ db.codes, x.uid = uid →
        x.code ≠ normalizeUnblockCode badCode) :
    (consumeUnblockCode db uid badCode = .error .invalidUnblockCode)
    ∧ (consumeUnblockCode db uid goodCode
        = .ok ⟨db.codes.filter (fun x => ¬ (x.uid = uid))⟩)
    ∧ (consumeUnblockCode ⟨db.codes.filter (fun x => ¬ (x.uid = uid))⟩
        uid goodCode = .error .invalidUnblockCode)
    ∧ DbError.errno .invalidUnblockCode = 127
    ∧ DbError.message .invalidUnblockCode = "Invalid unblock code" := by
  refine ⟨?_, ?_, ?_, rfl, rfl⟩
  · have hnone : db.codes.find?
        (fun x => x.uid = uid && x.code = normalizeUnblockCode badCode) = none := by
      rw [List.find?_eq_none]
      intro x hx
      simp only [Bool.and_eq_true, decide_eq_true_eq, not_and]
      intro h1 h2
      exact hbad x hx h1 h2
    simp only [consumeUnblockCode, hnone]
  · simp only [consumeUnblockCode, hfind]
  · have hnone2 : (db.codes.filter (fun x => ¬ (x.uid = uid))).find?
        (fun x => x.uid = uid && x.code = normalizeUnblockCode goodCode)
        = none := by
      rw [List.find?_eq_none]
      intro x hx
      have hx2 := (List.mem_filter.mp hx).2
      simp only [decide_not, Bool.not_eq_true', decide_eq_false_iff_not] at hx2
      simp only [Bool.and_eq_true, decide_eq_true_eq, not_and]
      intro h1 _
      exact hx2 h1
    simp only [consumeUnblockCode, hnone2]

theorem claim_consume_unblock_code_witness :
    (unblockDbW.codes.find?
        (fun x => x.uid = "u1" && x.code = normalizeUnblockCode "abcdefgh")
      = some ⟨"u1", "ABCDEFGH", 0⟩)
    ∧ (∀ x ∈ unblockDbW.codes, x.uid = "u1" →
        x.code ≠ normalizeUnblockCode "NOTREAL")
    ∧ ((consumeUnblockCode unblockDbW "u1" "NOTREAL"
          = .error .invalidUnblockCode)
      ∧ (consumeUnblockCode unblockDbW "u1" "abcdefgh"
          = .ok ⟨unblockDbW.codes.filter (fun x => ¬ (x.uid = "u1"))⟩)
      ∧ (consumeUnblockCode ⟨unblockDbW.codes.filter (fun x => ¬ (x.uid = "u1"))⟩
          "u1" "abcdefgh" = .error .invalidUnblockCode)
      ∧ DbError.errno .invalidUnblockCode = 127
      ∧ DbError.message .invalidUnblockCode = "Invalid unblock code") :=
  ⟨by decide, by decide,
    claim_consume_unblock_code unblockDbW "u1" "abcdefgh" "NOTREAL"
      ⟨"u1", "ABCDEFGH", 0⟩ (by decide) (by decide)⟩

/-- C8: `forgotPasswordVerified` on a verified password-forgot token
yields an account-reset token for the same uid created strictly later
than the source token, stores it, and deletes the source password-forgot
token (looking it up afterwards fails with `TokenNotFound`). -/
theorem claim_forgot_password_verified (now : Nat) (newTokenId : String)
    (db : ResetDb) (tok : PasswordForgotTokenRec)
    (hnow : tok.hdr.createdAt < now) :
    ((forgotPasswordVerified now newTokenId db tok).2.hdr.uid = tok.hdr.uid)
    ∧ (tok.hdr.createdAt
        < (forgotPasswordVerified now newTokenId db tok).2.hdr.createdAt)
    ∧ ((forgotPasswordVerified now newTokenId db tok).2
        ∈ (forgotPasswordVerified now newTokenId db tok).1.accountResetTokens)
    ∧ (∀ n2, passwordForgotToken n2
        (forgotPasswordVerified now newTokenId db tok).1.passwordForgotTokens
        tok.hdr.tokenId = .error .tokenNotFound) := by
  refine ⟨rfl, hnow, List.mem_cons_self _ _, ?_⟩
  intro n2
  exact lookupToken_deleteToken _ _ _ _

theorem claim_forgot_password_verified_witness :
    (0 : Nat) < 5
    ∧ (((forgotPasswordVerified 5 "ar1" resetDbW ⟨⟨"p1", "u1", 0, some 10⟩, 3⟩).2.hdr.uid
          = "u1")
      ∧ ((0 : Nat)
          < (forgotPasswordVerified 5 "ar1" resetDbW ⟨⟨"p1", "u1", 0, some 10⟩, 3⟩).2.hdr.createdAt)
      ∧ ((forgotPasswordVerified 5 "ar1" resetDbW ⟨⟨"p1", "u1", 0, some 10⟩, 3⟩).2
          ∈ (forgotPasswordVerified 5 "ar1" resetDbW ⟨⟨"p1", "u1", 0, some 10⟩, 3⟩).1.accountResetTokens)
      ∧ (∀ n2, passwordForgotToken n2
          (forgotPasswordVerified 5 "ar1" resetDbW ⟨⟨"p1", "u1", 0, some 10⟩, 3⟩).1.passwordForgotTokens
          "p1" = .error .tokenNotFound)) :=
  ⟨by decide,
    claim_forgot_password_verified 5 "ar1" resetDbW ⟨⟨"p1", "u1", 0, some 10⟩, 3⟩
      (by decide)⟩

theorem hexDigitVal_hexDigit : ∀ n < 16, hexDigitVal (hexDigit n) = some n := by
  decide

theorem hexDecodeChars_hexEncodeBytes (bs : List Nat)
    (h : ∀ b ∈ bs, b < 256) :
    hexDecodeChars (hexEncodeBytes bs) = some bs := by
  induction bs with
  | nil => rfl
  | cons b rest ih =>
    have hb : b < 256 := h b (List.mem_cons_self _ _)
    have h1 : b / 16 < 16 := by omega
    have h2 : b % 16 < 16 := Nat.mod_lt _ (by omega)
    have ih2 := ih (fun x hx => h x (List.mem_cons_of_mem _ hx))
    simp only [hexEncodeBytes, hexDecodeChars]
    rw [hexDigitVal_hexDigit _ h1, hexDigitVal_hexDigit _ h2, ih2]
    simp only [Nat.div_add_mod]

theorem hexDecode_hexEncode (bs : List Nat) (h : ∀ b ∈ bs, b < 256) :
    hexDecode (hexEncode bs) = some bs :=
  hexDecodeChars_hexEncodeBytes bs h

theorem hexEncode_inj (a b : List Nat) (ha : ∀ x ∈ a, x < 256)
    (hb : ∀ x ∈ b, x < 256) (h : hexEncode a = hexEncode b) : a = b := by
  have h1 := hexDecode_hexEncode a ha
  have h2 := hexDecode_hexEncode b hb
  rw [h, h2] at h1
  exact (Option.some.inj h1).symm

/-- C5: whenever `createSigninCode` returns, even when the random source
produced values colliding with still-unconsumed prior codes, the
returned hex string differs from the hex encoding of every
still-unconsumed prior code, and it decodes back to exactly the
configured signin-code byte size. -/
theorem claim_create_signin_code_unique (size : Nat)
    (stream : List (List Nat)) (now : Nat) (db : SigninDb) (uid : String)
    (flowId : Option String) (db2 : SigninDb) (hex : String)
    (hstream : ∀ c ∈ stream, c.length = size ∧ ∀ b ∈ c, b < 256)
    (hdb : ∀ r ∈ db.codes, ∀ b ∈ r.code, b < 256)
    (hres : createSigninCode stream now db uid flowId = some (db2, hex)) :
    (∀ r ∈ db.codes, hexEncode r.code ≠ hex)
    ∧ (∃ c, hex = hexEncode c ∧ hexDecode hex = some c ∧ c.length = size) := by
  induction stream with
  | nil => simp [createSigninCode] at hres
  | cons c rest ih =>
    by_cases hcol : db.codes.any (fun r => r.code = c) = true
    · rw [createSigninCode, if_pos hcol] at hres
      exact ih (fun x hx => hstream x (List.mem_cons_of_mem _ hx)) hres
    · rw [createSigninCode, if_neg hcol] at hres
      have hpair := Option.some.inj hres
      have hhex : hex = hexEncode c := (congrArg Prod.snd hpair).symm
      have hcprops := hstream c (List.mem_cons_self _ _)
      subst hhex
      constructor
      · intro r hr heq
        have hreq : r.code = c :=
          hexEncode_inj r.code c (hdb r hr) hcprops.2 heq
        exact hcol (List.any_eq_true.mpr ⟨r, hr, by simp [hreq]⟩)
      · exact ⟨c, rfl, hexDecode_hexEncode c hcprops.2, hcprops.1⟩

theorem claim_create_signin_code_unique_witness :
    (∀ c ∈ streamW, c.length = 2 ∧ ∀ b ∈ c, b < 256)
    ∧ (∀ r ∈ signinDbW.codes, ∀ b ∈ r.code, b < 256)
    ∧ (createSigninCode streamW 3 signinDbW "u1" none
        = some ({ signinDbW with
            codes := ⟨[0, 2], "u1", none, 3⟩ :: signinDbW.codes }, hexEncode [0, 2]))
    ∧ ((∀ r ∈ signinDbW.codes, hexEncode r.code ≠ hexEncode [0, 2])
      ∧ (∃ c, hexEncode [0, 2] = hexEncode c
          ∧ hexDecode (hexEncode [0, 2]) = some c ∧ c.length = 2)) :=
  ⟨by decide, by decide, by decide,
    claim_create_signin_code_unique 2 streamW 3 signinDbW "u1" none
      ({ signinDbW with codes := ⟨[0, 2], "u1", none, 3⟩ :: signinDbW.codes })
      (hexEncode [0, 2]) (by decide) (by decide) (by decide)⟩

/-- C6: the first `consumeSigninCode` of an unconsumed, unexpired signin
code deletes the row and returns the owning account's email and stored
flowId; consuming the same code again, or any absent or expired code,
fails with `InvalidSigninCode` — errno 146, HTTP status 400, message
"Invalid signin code". -/
theorem claim_consume_signin_code (now : Nat) (db : SigninDb) (code : String)
    (r : SigninCodeRec) (email : String)
    (hfind : db.codes.find? (fun x => hexEncode x.code = code) = some r)
    (hexp : ¬ (r.createdAt + signinCodeLifetime < now))
    (hacct : db.accounts.find? (fun a => a.1 = r.uid) = some (r.uid, email)) :
    (consumeSigninCode now db code
      = .ok ({ db with
            codes := db.codes.filter (fun x => ¬ (hexEncode x.code = code)) },
          { email := email, flowId := r.flowId }))
    ∧ (consumeSigninCode now
        { db with
          codes := db.codes.filter (fun x => ¬ (hexEncode x.code = code)) } code
      = .error .invalidSigninCode)
    ∧ (∀ db0 : SigninDb, ∀ c0 : String,
        db0.codes.find? (fun x => hexEncode x.code = c0) = none →
        consumeSigninCode now db0 c0 = .error .invalidSigninCode)
    ∧ (∀ db0 : SigninDb, ∀ c0 : String, ∀ r0 : SigninCodeRec,
        db0.codes.find? (fun x => hexEncode x.code = c0) = some r0 →
        r0.createdAt + signinCodeLifetime < now →
        consumeSigninCode now db0 c0 = .error .invalidSigninCode)
    ∧ DbError.errno .invalidSigninCode = 146
    ∧ DbError.statusCode .invalidSigninCode = 400
    ∧ DbError.message .invalidSigninCode = "Invalid signin code" := by
  refine ⟨?_, ?_, ?_, ?_, rfl, rfl, rfl⟩
  · simp only [consumeSigninCode, hfind, if_neg hexp, hacct]
  · have hnone : (db.codes.filter (fun x => ¬ (hexEncode x.code = code))).find?
        (fun x => hexEncode x.code = code) = none := by
      rw [List.find?_eq_none]
      intro x hx
      have hx2 := (List.mem_filter.mp hx).2
      simpa using hx2
    simp only [consumeSigninCode, hnone]
  · intro db0 c0 hnone
    simp only [consumeSigninCode, hnone]
  · intro db0 c0 r0 hfind0 hexp0
    simp only [consumeSigninCode, hfind0, if_pos hexp0]

theorem claim_consume_signin_code_witness :
    (signinDbW.codes.find? (fun x => hexEncode x.code = hexEncode [0, 1])
      = some ⟨[0, 1], "u1", none, 0⟩)
    ∧ ¬ ((0 : Nat) + signinCodeLifetime < 5)
    ∧ (signinDbW.accounts.find? (fun a => a.1 = "u1")
      = some ("u1", "foo@example.com"))
    ∧ ((consumeSigninCode 5 signinDbW (hexEncode [0, 1])
        = .ok ({ signinDbW with
              codes := signinDbW.codes.filter
                (fun x => ¬ (hexEncode x.code = hexEncode [0, 1])) },
            { email := "foo@example.com", flowId := none }))
      ∧ (consumeSigninCode 5
          { signinDbW with
            codes := signinDbW.codes.filter
              (fun x => ¬ (hexEncode x.code = hexEncode [0, 1])) }
          (hexEncode [0, 1]) = .error .invalidSigninCode)
      ∧ (∀ db0 : SigninDb, ∀ c0 : String,
          db0.codes.find? (fun x => hexEncode x.code = c0) = none →
          consumeSigninCode 5 db0 c0 = .error .invalidSigninCode)
      ∧ (∀ db0 : SigninDb, ∀ c0 : String, ∀ r0 : SigninCodeRec,
          db0.codes.find? (fun x => hexEncode x.code = c0) = some r0 →
          r0.createdAt + signinCodeLifetime < 5 →
          consumeSigninCode 5 db0 c0 = .error .invalidSigninCode)
      ∧ DbError.errno .invalidSigninCode = 146
      ∧ DbError.statusCode .invalidSigninCode = 400
      ∧ DbError.message .invalidSigninCode = "Invalid signin code") :=
  ⟨by decide, by decide, by decide,
    claim_consume_signin_code 5 signinDbW (hexEncode [0, 1])
      ⟨[0, 1], "u1", none, 0⟩ "foo@example.com"
      (by decide) (by decide) (by decide)⟩

/-- C10: when the grant's scope set does not intersect the oldsync
notification scope, `newTokenNotification` returns immediately with no
collaborator invocation — no access-token check, client-info lookup,
device upsert, account read or notification email — and the passed-in
credentials are left unmodified. -/
theorem claim_new_token_notification_no_scope (oauthdb : OauthCollabs)
    (request : RequestData) (credentials : Option Credentials) (grant : Grant)
    (h : scopeIntersects (scopeSetFromString grant.scope) NOTIFICATION_SCOPES
      = false) :
    newTokenNotification oauthdb request credentials grant
      = (credentials, []) := by
  simp only [newTokenNotification, h]
  simp

theorem claim_new_token_notification_no_scope_witness :
    (scopeIntersects (scopeSetFromString grantW.scope) NOTIFICATION_SCOPES
      = false)
    ∧ newTokenNotification collabsW requestW (some credsW) grantW
      = (some credsW, []) :=
  ⟨by decide,
    claim_new_token_notification_no_scope collabsW requestW (some credsW)
      grantW (by decide)⟩

end FxaDb
